import Mathlib

/-!
Verification of the `mabiki` debounce/throttle invocation scheduler
(`src/debounce.ts`), shallowly embedded in Lean 4.

Times are modelled as integers (milliseconds).  JavaScript `undefined` is
modelled with `Option`.  The wrapped callable is an abstract pure function
`f : Option θ → Option α → ρ` (receiver binding and the argument payload are
both passed explicitly; either may be `undefined`).  The per-instance mutable
closure variables of `debounce` become the fields of an explicit state record,
and every closure function becomes a state-passing Lean function.  The state
carries one ghost field, `invokeCount`, incremented exactly where the source
calls `func.apply` — it lets theorems count actual invocations and is touched
nowhere else.
-/

namespace Mabiki

/-- Configuration computed by the `debounce` constructor:
`waitValue`, `leading`, `trailing`, `maxWait` from `src/debounce.ts`. -/
structure DebounceConfig where
  waitValue : Int
  leading : Bool
  trailing : Bool
  maxWait : Option Int
  deriving Repr, DecidableEq

/-- The mutable closure state of one scheduler instance:
`lastArgs`, `lastThis`, `result`, `lastCallTime`, `timerId`, `lastInvokeTime`
from `src/debounce.ts`.  A pending timer is modelled by `timerId = some d`
where `d` is the delay it was scheduled with (the second argument of `startTimer`);
`none` means no timer is outstanding.  `invokeCount` is ghost instrumentation
counting calls of the wrapped callable. -/
structure DebounceState (α θ ρ : Type) where
  lastArgs : Option α
  lastThis : Option θ
  result : Option ρ
  lastCallTime : Option Int
  timerId : Option Int
  lastInvokeTime : Int
  invokeCount : Nat
  deriving Repr, DecidableEq

variable {α θ ρ : Type}

/-- The state right after construction: every slot `undefined`,
`lastInvokeTime = 0`. -/
def initState : DebounceState α θ ρ :=
  { lastArgs := none, lastThis := none, result := none, lastCallTime := none,
    timerId := none, lastInvokeTime := 0, invokeCount := 0 }

/-- Embeds `invokeFunc(time)`: consume `lastArgs`/`lastThis`, set `lastInvokeTime`,
apply `func`, store and return the result. -/
def invokeFunc (f : Option θ → Option α → ρ) (time : Int)
    (s : DebounceState α θ ρ) : ρ × DebounceState α θ ρ :=
  let args := s.lastArgs
  let thisArg := s.lastThis
  let r := f thisArg args
  (r, { s with lastArgs := none, lastThis := none, lastInvokeTime := time,
               result := some r, invokeCount := s.invokeCount + 1 })

/-- Embeds `startTimer(pendingFunc, wait)` in the fixed-timer (non-`requestAnimationFrame`)
path: record a pending timer with the given delay. -/
def startTimer (delay : Int) (s : DebounceState α θ ρ) : DebounceState α θ ρ :=
  { s with timerId := some delay }

/-- Embeds `shouldInvoke(time)` from `src/debounce.ts`. -/
def shouldInvoke (cfg : DebounceConfig) (s : DebounceState α θ ρ)
    (time : Int) : Bool :=
  match s.lastCallTime with
  | none => true
  | some lct =>
    let timeSinceLastCall := time - lct
    let timeSinceLastInvoke := time - s.lastInvokeTime
    decide (timeSinceLastCall ≥ cfg.waitValue) ||
      decide (timeSinceLastCall < 0) ||
      (match cfg.maxWait with
       | none => false
       | some mw => decide (timeSinceLastInvoke ≥ mw))

/-- Embeds `remainingWait(time)` from `src/debounce.ts`. -/
def remainingWait (cfg : DebounceConfig) (s : DebounceState α θ ρ)
    (time : Int) : Int :=
  match s.lastCallTime with
  | none => 0
  | some lct =>
    let timeSinceLastCall := time - lct
    let timeSinceLastInvoke := time - s.lastInvokeTime
    let timeWaiting := cfg.waitValue - timeSinceLastCall
    match cfg.maxWait with
    | none => timeWaiting
    | some mw => min timeWaiting (mw - timeSinceLastInvoke)

/-- Embeds `trailingEdge(time)` from `src/debounce.ts`: clear the timer slot, then
invoke only when `trailing` is set and `lastArgs` is present (in the source the
pending `lastArgs` is always a — truthy — arguments array). -/
def trailingEdge (f : Option θ → Option α → ρ) (cfg : DebounceConfig)
    (time : Int) (s : DebounceState α θ ρ) :
    Option ρ × DebounceState α θ ρ :=
  let s := { s with timerId := none }
  if cfg.trailing && s.lastArgs.isSome then
    let (r, s') := invokeFunc f time s
    (some r, s')
  else
    (s.result, { s with lastArgs := none, lastThis := none })

/-- Embeds `leadingEdge(time)` from `src/debounce.ts`: reset the `maxWait` clock,
start the trailing-edge timer, invoke now only if `leading`. -/
def leadingEdge (f : Option θ → Option α → ρ) (cfg : DebounceConfig)
    (time : Int) (s : DebounceState α θ ρ) :
    Option ρ × DebounceState α θ ρ :=
  let s := startTimer cfg.waitValue { s with lastInvokeTime := time }
  if cfg.leading then
    let (r, s') := invokeFunc f time s
    (some r, s')
  else
    (s.result, s)

/-- Embeds `timerExpired()` from `src/debounce.ts`, with `Date.now()` passed in as
`time`: take the trailing edge when due, otherwise restart the timer for
`remainingWait(time)` and return `undefined`. -/
def timerExpired (f : Option θ → Option α → ρ) (cfg : DebounceConfig)
    (time : Int) (s : DebounceState α θ ρ) :
    Option ρ × DebounceState α θ ρ :=
  if shouldInvoke cfg s time then
    trailingEdge f cfg time s
  else
    (none, startTimer (remainingWait cfg s time) s)

/-- Embeds `cancel()` from `src/debounce.ts`: drop the timer, reset
`lastInvokeTime` to 0 and clear `lastArgs`, `lastCallTime`, `lastThis`,
`timerId`. -/
def cancel (s : DebounceState α θ ρ) : DebounceState α θ ρ :=
  { s with lastInvokeTime := 0, lastArgs := none, lastCallTime := none,
           lastThis := none, timerId := none }

/-- Embeds `flush()` from `src/debounce.ts`, with `Date.now()` passed in as `time`. -/
def flush (f : Option θ → Option α → ρ) (cfg : DebounceConfig) (time : Int)
    (s : DebounceState α θ ρ) : Option ρ × DebounceState α θ ρ :=
  match s.timerId with
  | none => (s.result, s)
  | some _ => trailingEdge f cfg time s

/-- Embeds `pending()` from `src/debounce.ts`. -/
def pending (s : DebounceState α θ ρ) : Bool :=
  s.timerId.isSome

/-- Embeds `debounced(...args)` from `src/debounce.ts`, with `Date.now()` passed in as
`time`, the receiver binding as `thisArg` and the arguments array as `args`
(an arguments array always exists, so `lastArgs` is set to `some args`). -/
def debounced (f : Option θ → Option α → ρ) (cfg : DebounceConfig)
    (time : Int) (thisArg : Option θ) (args : α)
    (s : DebounceState α θ ρ) : Option ρ × DebounceState α θ ρ :=
  let isInvoking := shouldInvoke cfg s time
  let s1 : DebounceState α θ ρ :=
    { s with lastArgs := some args, lastThis := thisArg,
             lastCallTime := some time }
  if isInvoking && s1.timerId.isNone then
    leadingEdge f cfg time s1
  else if isInvoking && cfg.maxWait.isSome then
    -- handle invocations in a tight loop
    let s2 := startTimer cfg.waitValue s1
    let (r, s3) := invokeFunc f time s2
    (some r, s3)
  else
    let s2 := if s1.timerId.isNone then startTimer cfg.waitValue s1 else s1
    (s2.result, s2)

/-- The value handed to `debounce` as its `wait` parameter, as a JavaScript
caller may supply it: absent (`undefined`), a number, or any value whose
numeric coercion is `NaN`. -/
inductive WaitArg where
  | undef
  | num (n : Int)
  | nonNumeric
  deriving Repr, DecidableEq

/-- Embeds `Number(wait) || 0` from `src/debounce.ts`: `undefined` and non-numeric
values coerce to `NaN`, which is falsy, and a numeric `0` is falsy too, so all
three yield `0`; any other number passes through unchanged. -/
def coerceWait : WaitArg → Int
  | .undef => 0
  | .nonNumeric => 0
  | .num n => if n = 0 then 0 else n

/-- The recognized option fields when `options` is an object.  `leading`
stores the truthiness of `options.leading` (`!!options.leading`, absent means
`false`); `maxWait` is present exactly when `"maxWait" in options`, with the
supplied value; `trailing` is present exactly when `"trailing" in options`,
storing the truthiness of `options.trailing`. -/
structure DebounceOptions where
  leading : Bool
  maxWait : Option WaitArg
  trailing : Option Bool
  deriving Repr, DecidableEq

/-- The `options` argument as supplied by a JavaScript caller: either a value
for which `isObject` is false (number, string, boolean, `null`, `undefined`,
function, …) or a genuine object. -/
inductive OptionsArg where
  | nonObject
  | obj (o : DebounceOptions)
  deriving Repr, DecidableEq

/-- The configuration the `debounce` constructor computes from `wait` and
`options`: `waitValue = Number(wait) || 0`; when `isObject(options)`,
`leading = !!options.leading`,
`maxWait = Math.max(Number(options.maxWait) || 0, waitValue)` if present,
`trailing = !!options.trailing` if present (else `true`); otherwise the
defaults `leading = false`, `trailing = true`, `maxWait = null`. -/
def mkConfig (w : WaitArg) (opts : OptionsArg) : DebounceConfig :=
  let waitValue := coerceWait w
  match opts with
  | .nonObject =>
      { waitValue := waitValue, leading := false, trailing := true,
        maxWait := none }
  | .obj o =>
      { waitValue := waitValue
        leading := o.leading
        maxWait := o.maxWait.map (fun mw => max (coerceWait mw) waitValue)
        trailing := o.trailing.getD true }

/-- Validation done by the `debounce` constructor: `typeof func !== "function"`
throws a `TypeError` synchronously and no instance is produced; otherwise the
configuration above is computed.  `funcIsCallable` records whether the first
parameter is callable. -/
def debounceCtor (funcIsCallable : Bool) (w : WaitArg) (opts : OptionsArg) :
    Except String DebounceConfig :=
  if funcIsCallable then
    Except.ok (mkConfig w opts)
  else
    Except.error "Expected a function"

/-- Sample wrapped callable (over `Int` payloads) used by concrete witnesses. -/
def sampleF : Option Int → Option Int → Int :=
  fun thisArg args => args.getD 0 + 100 * thisArg.getD 0

/-- Sample configuration: `wait = 32`, `leading = true`, `trailing = true`,
no `maxWait`. -/
def sampleCfg : DebounceConfig :=
  { waitValue := 32, leading := true, trailing := true, maxWait := none }

/-- Sample configuration with `maxWait`: `wait = 32`, `leading = false`,
`trailing = true`, `maxWait = 64`. -/
def sampleCfgMax : DebounceConfig :=
  { waitValue := 32, leading := false, trailing := true, maxWait := some 64 }

/-- Sample mid-burst state: a call happened at time 5, a timer is pending,
nothing invoked yet. -/
def sampleBurst : DebounceState Int Int Int :=
  { lastArgs := some 7, lastThis := none, result := none,
    lastCallTime := some 5, timerId := some 32, lastInvokeTime := 5,
    invokeCount := 0 }

/-- Sample settled state: a burst completed its trailing edge at time 32
(one invocation, result stored), no timer outstanding, call-tracking still
recorded. -/
def sampleSettled : DebounceState Int Int Int :=
  { lastArgs := none, lastThis := none, result := some 7,
    lastCallTime := some 5, timerId := none, lastInvokeTime := 32,
    invokeCount := 1 }

/-- C1: for every scheduler state and time `t`, `shouldInvoke t` is true if
and only if `lastCallTime` is undefined, or `t - lastCallTime ≥ wait`, or
`t - lastCallTime < 0`, or `maxWait` is configured and
`t - lastInvokeTime ≥ maxWait`; in every other state it is false. -/
theorem shouldInvoke_iff (cfg : DebounceConfig) (s : DebounceState α θ ρ)
    (t : Int) :
    shouldInvoke cfg s t = true ↔
      s.lastCallTime = none ∨
      (∃ lct, s.lastCallTime = some lct ∧
        (t - lct ≥ cfg.waitValue ∨ t - lct < 0 ∨
         (∃ mw, cfg.maxWait = some mw ∧ t - s.lastInvokeTime ≥ mw))) := by
  cases h : s.lastCallTime with
  | none => simp [shouldInvoke, h]
  | some lct =>
    cases hm : cfg.maxWait with
    | none => simp [shouldInvoke, h, hm]
    | some mw => simp [shouldInvoke, h, hm, or_assoc]

/-- C2: a call at time `t` with `shouldInvoke t` true and no timer outstanding
sets `lastInvokeTime` to `t`, starts a trailing-edge timer for `wait`, and
invokes the wrapped callable immediately if and only if `leading` is true;
when `leading` is false it returns the previous `result` unchanged without
invoking. -/
theorem debounced_leadingEdge_spec (f : Option θ → Option α → ρ)
    (cfg : DebounceConfig) (t : Int) (thisArg : Option θ) (args : α)
    (s : DebounceState α θ ρ)
    (hInv : shouldInvoke cfg s t = true) (hTimer : s.timerId = none) :
    (debounced f cfg t thisArg args s).2.lastInvokeTime = t ∧
    (debounced f cfg t thisArg args s).2.timerId = some cfg.waitValue ∧
    (debounced f cfg t thisArg args s).2.invokeCount =
      s.invokeCount + (if cfg.leading then 1 else 0) ∧
    (cfg.leading = true →
      (debounced f cfg t thisArg args s).1 = some (f thisArg (some args)) ∧
      (debounced f cfg t thisArg args s).2.result =
        some (f thisArg (some args))) ∧
    (cfg.leading = false →
      (debounced f cfg t thisArg args s).1 = s.result ∧
      (debounced f cfg t thisArg args s).2.result = s.result) := by
  cases hLead : cfg.leading <;>
    simp [debounced, leadingEdge, invokeFunc, startTimer, hInv, hTimer, hLead]

/-- Witness for C2: concrete leading-edge call from the initial state. -/
theorem debounced_leadingEdge_spec_witness :
    (shouldInvoke sampleCfg (initState : DebounceState Int Int Int) 5 = true ∧
     (initState : DebounceState Int Int Int).timerId = none) ∧
    ((debounced sampleF sampleCfg 5 none 7 initState).2.lastInvokeTime = 5 ∧
     (debounced sampleF sampleCfg 5 none 7 initState).2.timerId =
       some sampleCfg.waitValue ∧
     (debounced sampleF sampleCfg 5 none 7 initState).2.invokeCount =
       (initState : DebounceState Int Int Int).invokeCount +
         (if sampleCfg.leading then 1 else 0) ∧
     (sampleCfg.leading = true →
       (debounced sampleF sampleCfg 5 none 7 initState).1 =
         some (sampleF none (some 7)) ∧
       (debounced sampleF sampleCfg 5 none 7 initState).2.result =
         some (sampleF none (some 7))) ∧
     (sampleCfg.leading = false →
       (debounced sampleF sampleCfg 5 none 7 initState).1 =
         (initState : DebounceState Int Int Int).result ∧
       (debounced sampleF sampleCfg 5 none 7 initState).2.result =
         (initState : DebounceState Int Int Int).result)) :=
  ⟨⟨by decide, by decide⟩,
    debounced_leadingEdge_spec sampleF sampleCfg 5 none 7 initState
      (by decide) (by decide)⟩

/-- C3: a call at time `t` with `shouldInvoke t` true, a timer outstanding and
`maxWait` configured reschedules the trailing timer for a fresh `wait`
interval and invokes the wrapped callable immediately, whatever the value of
`leading`. -/
theorem debounced_tightLoop_spec (f : Option θ → Option α → ρ)
    (cfg : DebounceConfig) (t : Int) (thisArg : Option θ) (args : α)
    (s : DebounceState α θ ρ)
    (hInv : shouldInvoke cfg s t = true) (hTimer : s.timerId ≠ none)
    (hMax : cfg.maxWait.isSome = true) :
    (debounced f cfg t thisArg args s).2.timerId = some cfg.waitValue ∧
    (debounced f cfg t thisArg args s).2.invokeCount = s.invokeCount + 1 ∧
    (debounced f cfg t thisArg args s).1 = some (f thisArg (some args)) ∧
    (debounced f cfg t thisArg args s).2.lastInvokeTime = t := by
  have hT : s.timerId.isNone = false := by
    cases h : s.timerId with
    | none => exact absurd h hTimer
    | some d => rfl
  simp [debounced, invokeFunc, startTimer, hInv, hT, hMax]

/-- Witness for C3: concrete tight-loop call in a mid-burst state past the
`maxWait` boundary. -/
theorem debounced_tightLoop_spec_witness :
    (shouldInvoke sampleCfgMax
        { sampleBurst with lastInvokeTime := -60 } 20 = true ∧
     ({ sampleBurst with lastInvokeTime := -60 } :
        DebounceState Int Int Int).timerId ≠ none ∧
     sampleCfgMax.maxWait.isSome = true) ∧
    ((debounced sampleF sampleCfgMax 20 none 9
        { sampleBurst with lastInvokeTime := -60 }).2.timerId =
       some sampleCfgMax.waitValue ∧
     (debounced sampleF sampleCfgMax 20 none 9
        { sampleBurst with lastInvokeTime := -60 }).2.invokeCount =
       ({ sampleBurst with lastInvokeTime := -60 } :
          DebounceState Int Int Int).invokeCount + 1 ∧
     (debounced sampleF sampleCfgMax 20 none 9
        { sampleBurst with lastInvokeTime := -60 }).1 =
       some (sampleF none (some 9)) ∧
     (debounced sampleF sampleCfgMax 20 none 9
        { sampleBurst with lastInvokeTime := -60 }).2.lastInvokeTime = 20) :=
  ⟨⟨by decide, by decide, by decide⟩,
    debounced_tightLoop_spec sampleF sampleCfgMax 20 none 9
      { sampleBurst with lastInvokeTime := -60 }
      (by decide) (by decide) (by decide)⟩

/-- C4: when the timer fires at `now`: if `shouldInvoke now` is true the
trailing edge runs — it invokes the wrapped callable with the pending
arguments if and only if `trailing` is enabled and arguments are pending
(producing a fresh `result`), otherwise leaves `result` unchanged and clears
the pending arguments — and clears the timer slot; if `shouldInvoke now` is
false the timer is rescheduled for
`min(wait - elapsedSinceLastCall, maxWait - elapsedSinceLastInvoke)` when
`maxWait` is set, else `wait - elapsedSinceLastCall`. -/
theorem timerExpired_spec (f : Option θ → Option α → ρ)
    (cfg : DebounceConfig) (now : Int) (s : DebounceState α θ ρ) :
    (shouldInvoke cfg s now = true →
      timerExpired f cfg now s = trailingEdge f cfg now s ∧
      (timerExpired f cfg now s).2.timerId = none ∧
      (timerExpired f cfg now s).2.lastArgs = none ∧
      ((cfg.trailing && s.lastArgs.isSome) = true →
        (timerExpired f cfg now s).2.invokeCount = s.invokeCount + 1 ∧
        (timerExpired f cfg now s).2.result = some (f s.lastThis s.lastArgs) ∧
        (timerExpired f cfg now s).1 = some (f s.lastThis s.lastArgs)) ∧
      ((cfg.trailing && s.lastArgs.isSome) = false →
        (timerExpired f cfg now s).2.invokeCount = s.invokeCount ∧
        (timerExpired f cfg now s).2.result = s.result ∧
        (timerExpired f cfg now s).1 = s.result)) ∧
    (shouldInvoke cfg s now = false →
      (timerExpired f cfg now s).2.timerId =
        some (remainingWait cfg s now) ∧
      (∀ lct, s.lastCallTime = some lct →
        remainingWait cfg s now =
          match cfg.maxWait with
          | some mw =>
              min (cfg.waitValue - (now - lct)) (mw - (now - s.lastInvokeTime))
          | none => cfg.waitValue - (now - lct))) := by
  constructor
  · intro hInv
    cases hTr : (cfg.trailing && s.lastArgs.isSome) <;>
      simp [timerExpired, trailingEdge, invokeFunc, hInv, hTr]
  · intro hInv
    refine ⟨by simp [timerExpired, startTimer, hInv], ?_⟩
    intro lct hlct
    cases hm : cfg.maxWait <;> simp [remainingWait, hlct, hm]

/-- Witness for C4: a fired timer in the mid-burst state is due at time 40
and overdue-free at time 10, exercising both branches. -/
theorem timerExpired_spec_witness :
    (shouldInvoke sampleCfg sampleBurst 40 = true ∧
     (timerExpired sampleF sampleCfg 40 sampleBurst).2.timerId = none ∧
     (timerExpired sampleF sampleCfg 40 sampleBurst).2.invokeCount =
       sampleBurst.invokeCount + 1) ∧
    (shouldInvoke sampleCfg sampleBurst 10 = false ∧
     (timerExpired sampleF sampleCfg 10 sampleBurst).2.timerId =
       some (remainingWait sampleCfg sampleBurst 10) ∧
     remainingWait sampleCfg sampleBurst 10 =
       sampleCfg.waitValue - (10 - 5)) :=
  ⟨⟨by decide,
    ((timerExpired_spec sampleF sampleCfg 40 sampleBurst).1
      (by decide)).2.1,
    (((timerExpired_spec sampleF sampleCfg 40 sampleBurst).1
      (by decide)).2.2.2.1 (by decide)).1⟩,
   ⟨by decide,
    ((timerExpired_spec sampleF sampleCfg 10 sampleBurst).2
      (by decide)).1,
    ((timerExpired_spec sampleF sampleCfg 10 sampleBurst).2
      (by decide)).2 5 rfl⟩⟩

/-- C5: `flush()` at time `t` with a timer outstanding performs the
trailing-edge logic at `t` and returns its result; with no timer outstanding
it returns the current `result` unchanged (still `undefined` if the wrapped
callable was never invoked) and changes no state. -/
theorem flush_spec (f : Option θ → Option α → ρ) (cfg : DebounceConfig)
    (t : Int) (s : DebounceState α θ ρ) :
    (s.timerId = none →
      (flush f cfg t s).1 = s.result ∧ (flush f cfg t s).2 = s) ∧
    (s.timerId ≠ none → flush f cfg t s = trailingEdge f cfg t s) := by
  cases h : s.timerId with
  | none => simp [flush, h]
  | some d => simp [flush, h]

/-- Witness for C5: flushing the settled state (no timer) is a pure read;
flushing the mid-burst state takes the trailing edge. -/
theorem flush_spec_witness :
    (sampleSettled.timerId = none ∧
     (flush sampleF sampleCfg 40 sampleSettled).1 = sampleSettled.result ∧
     (flush sampleF sampleCfg 40 sampleSettled).2 = sampleSettled) ∧
    (sampleBurst.timerId ≠ none ∧
     flush sampleF sampleCfg 40 sampleBurst =
       trailingEdge sampleF sampleCfg 40 sampleBurst) :=
  ⟨⟨by decide,
    (flush_spec sampleF sampleCfg 40 sampleSettled).1 (by decide)⟩,
   ⟨by decide,
    (flush_spec sampleF sampleCfg 40 sampleBurst).2 (by decide)⟩⟩

/-- C6 counterexample: in the settled state (no timer outstanding, so nothing
is pending) `cancel()` is not a no-op — it clears `lastCallTime` and resets
`lastInvokeTime`, and the change is observable: with `leading = true` the next
call right after `cancel()` invokes immediately, while without the `cancel()`
it would not. -/
theorem cancel_noop_counterexample :
    pending sampleSettled = false ∧
    cancel sampleSettled ≠ sampleSettled ∧
    sampleSettled.lastCallTime = some 5 ∧
    (cancel sampleSettled).lastCallTime = none ∧
    (debounced sampleF sampleCfg 6 none 9 (cancel sampleSettled)).2.invokeCount
      = 2 ∧
    (debounced sampleF sampleCfg 6 none 9 sampleSettled).2.invokeCount = 1 := by
  decide

/-- C6 (amended): `cancel()` discards any outstanding timer, sets `lastArgs`,
`lastThis`, `lastCallTime` and `timerId` to undefined, resets `lastInvokeTime`
to 0, and leaves `result` (and the invocation count) unchanged; it is
idempotent — cancelling twice equals cancelling once — and it is a no-op
exactly on states whose timer, pending payload and call tracking are already
clear (such as the initial state), not on every state with nothing pending. -/
theorem cancel_spec (s : DebounceState α θ ρ) :
    (cancel s).timerId = none ∧ (cancel s).lastArgs = none ∧
    (cancel s).lastThis = none ∧ (cancel s).lastCallTime = none ∧
    (cancel s).lastInvokeTime = 0 ∧ (cancel s).result = s.result ∧
    (cancel s).invokeCount = s.invokeCount ∧
    cancel (cancel s) = cancel s ∧
    (s.timerId = none ∧ s.lastArgs = none ∧ s.lastThis = none ∧
      s.lastCallTime = none ∧ s.lastInvokeTime = 0 → cancel s = s) := by
  refine ⟨rfl, rfl, rfl, rfl, rfl, rfl, rfl, rfl, ?_⟩
  rintro ⟨h1, h2, h3, h4, h5⟩
  cases s
  simp_all [cancel]

/-- Witness for C6: cancelling the initial state preserves `result`, is
idempotent, and is a no-op there. -/
theorem cancel_spec_witness :
    (cancel (initState : DebounceState Int Int Int)).result =
      (initState : DebounceState Int Int Int).result ∧
    cancel (cancel (initState : DebounceState Int Int Int)) =
      cancel initState ∧
    cancel (initState : DebounceState Int Int Int) = initState := by
  have h := cancel_spec (initState : DebounceState Int Int Int)
  exact ⟨h.2.2.2.2.2.1, h.2.2.2.2.2.2.2.1,
    h.2.2.2.2.2.2.2.2 ⟨rfl, rfl, rfl, rfl, rfl⟩⟩

/-- C7: construction fails with the `TypeError` exactly when `func` is not
callable (and then produces no configuration), and for every non-object
`options` value construction succeeds with the defaults `leading = false`,
`trailing = true`, `maxWait` unset. -/
theorem debounceCtor_spec (c : Bool) (w : WaitArg) (opts : OptionsArg) :
    ((∃ cfg, debounceCtor c w opts = Except.ok cfg) ↔ c = true) ∧
    (c = false →
      debounceCtor c w opts = Except.error "Expected a function") ∧
    (debounceCtor true w OptionsArg.nonObject =
      Except.ok { waitValue := coerceWait w, leading := false,
                  trailing := true, maxWait := none }) := by
  cases c <;> simp [debounceCtor, mkConfig]

/-- Witness for C7: a non-callable first argument raises; a callable one with
numeric wait 32 and non-object options yields the default configuration. -/
theorem debounceCtor_spec_witness :
    debounceCtor false WaitArg.undef OptionsArg.nonObject =
      Except.error "Expected a function" ∧
    debounceCtor true (WaitArg.num 32) OptionsArg.nonObject =
      Except.ok { waitValue := coerceWait (WaitArg.num 32), leading := false,
                  trailing := true, maxWait := none } :=
  ⟨(debounceCtor_spec false WaitArg.undef OptionsArg.nonObject).2.1 rfl,
   (debounceCtor_spec true (WaitArg.num 32) OptionsArg.nonObject).2.2⟩

/-- C8 counterexample: passing `wait = -5` yields an effective wait of `-5`,
which is negative — the effective wait is not always non-negative. -/
theorem waitValue_negative_counterexample :
    (mkConfig (WaitArg.num (-5)) OptionsArg.nonObject).waitValue = -5 ∧
    ¬(0 ≤ (mkConfig (WaitArg.num (-5)) OptionsArg.nonObject).waitValue) := by
  decide

/-- C8 (amended): for every value passed as `wait`, the effective wait is the
number coerced from it — used as-is, so a negative `wait` produces a negative
effective wait — and it equals 0 whenever `wait` is absent or invalid (not
coercible to a number), or coerces to 0. -/
theorem waitValue_spec (w : WaitArg) (opts : OptionsArg) :
    (mkConfig w opts).waitValue = coerceWait w ∧
    ((w = WaitArg.undef ∨ w = WaitArg.nonNumeric) →
      (mkConfig w opts).waitValue = 0) ∧
    (∀ n : Int, n ≠ 0 → coerceWait (WaitArg.num n) = n) := by
  refine ⟨?_, ?_, ?_⟩
  · cases opts <;> rfl
  · rintro (rfl | rfl) <;> cases opts <;> rfl
  · intro n hn
    simp [coerceWait, hn]

/-- Witness for C8 (amended): absent `wait` gives 0; `wait = -5` gives -5. -/
theorem waitValue_spec_witness :
    (mkConfig WaitArg.undef OptionsArg.nonObject).waitValue = 0 ∧
    coerceWait (WaitArg.num (-5)) = -5 :=
  ⟨(waitValue_spec WaitArg.undef OptionsArg.nonObject).2.1 (Or.inl rfl),
   (waitValue_spec WaitArg.undef OptionsArg.nonObject).2.2 (-5) (by decide)⟩

/-- C9: immediately after any call to the wrapped function returns — whatever
path it took and whether or not it invoked the wrapped callable — a timer is
outstanding, i.e. `pending()` returns true. -/
theorem pending_after_debounced (f : Option θ → Option α → ρ)
    (cfg : DebounceConfig) (t : Int) (thisArg : Option θ) (args : α)
    (s : DebounceState α θ ρ) :
    pending (debounced f cfg t thisArg args s).2 = true := by
  cases hI : shouldInvoke cfg s t <;> cases hT : s.timerId <;>
    cases hL : cfg.leading <;> cases hM : cfg.maxWait <;>
      simp [debounced, pending, leadingEdge, invokeFunc, startTimer,
        hI, hT, hL, hM]

/-- C10: with `leading = true` and `trailing = true`, a burst of exactly one
call (at time `t`, from the fresh state) invokes the wrapped callable exactly
once: the leading-edge invocation consumes `lastArgs`, and when the timer
later fires (at any `tFire` with `tFire - t ≥ wait`) the trailing edge finds
no pending arguments and does not invoke again. -/
theorem singleCall_leading_trailing_once (f : Option θ → Option α → ρ)
    (wait : Int) (mw : Option Int) (t tFire : Int) (thisArg : Option θ)
    (args : α) (cfg : DebounceConfig) (s1 s2 : DebounceState α θ ρ)
    (hcfg : cfg = { waitValue := wait, leading := true, trailing := true,
                    maxWait := mw })
    (hs1 : s1 = (debounced f cfg t thisArg args initState).2)
    (hs2 : s2 = (timerExpired f cfg tFire s1).2)
    (hfire : tFire - t ≥ wait) :
    s1.invokeCount = 1 ∧ s1.lastArgs = none ∧
    s1.result = some (f thisArg (some args)) ∧
    s2.invokeCount = 1 ∧ s2.result = s1.result ∧ s2.timerId = none := by
  subst hcfg hs1 hs2
  cases mw <;>
    simp [debounced, leadingEdge, invokeFunc, startTimer, initState,
      shouldInvoke, timerExpired, trailingEdge, remainingWait, hfire]

/-- Witness for C10: `wait = 32`, one call at time 0, timer fires at 32. -/
theorem singleCall_leading_trailing_once_witness :
    (32 : Int) - 0 ≥ (32 : Int) ∧
    ((debounced sampleF sampleCfg 0 none 7 initState).2.invokeCount = 1 ∧
     (debounced sampleF sampleCfg 0 none 7 initState).2.lastArgs = none ∧
     (debounced sampleF sampleCfg 0 none 7 initState).2.result =
       some (sampleF none (some 7)) ∧
     (timerExpired sampleF sampleCfg 32
        (debounced sampleF sampleCfg 0 none 7 initState).2).2.invokeCount
       = 1 ∧
     (timerExpired sampleF sampleCfg 32
        (debounced sampleF sampleCfg 0 none 7 initState).2).2.result =
       (debounced sampleF sampleCfg 0 none 7 initState).2.result ∧
     (timerExpired sampleF sampleCfg 32
        (debounced sampleF sampleCfg 0 none 7 initState).2).2.timerId =
       none) :=
  ⟨by decide,
   singleCall_leading_trailing_once sampleF 32 none 0 32 none 7 sampleCfg
     _ _ rfl rfl rfl (by decide)⟩

end Mabiki
